import Mathlib

/-!
Verification development for the QuantumQA retrieval / grounded-generation
pipeline (`backend/ingest.py`, `backend/rag.py`, `backend/selectors.py`,
`backend/script_generation.py`).

The Python source is shallowly embedded: pure functions become Lean
functions, the mutable `chunk_counter` becomes explicitly threaded state,
exceptions become `Except`, and external collaborators (the Gemini text
backend, the JSON parser of the standard library, the sentence-transformer
embedding model, ChromaDB, BeautifulSoup parsing, PyMuPDF, langchain's text
splitter) are abstracted as function parameters, exactly at their call
boundaries.  Everything downstream of those boundaries is translated from
the source.
-/

/-! ## Values of parsed JSON / Python data

Model of the Python values that `json.loads` can return and that the
pipeline passes around: `None`, booleans, numbers (integer case), strings,
lists and dicts (as association lists in insertion order; `json.loads`
produces dicts with unique keys). -/

inductive Json where
  | null
  | bool (b : Bool)
  | num (n : Int)
  | str (s : String)
  | arr (xs : List Json)
  | obj (kvs : List (String × Json))

mutual

def Json.beq : Json → Json → Bool
  | .null, .null => true
  | .bool a, .bool b => a == b
  | .num a, .num b => a == b
  | .str a, .str b => a == b
  | .arr a, .arr b => Json.beqList a b
  | .obj a, .obj b => Json.beqObj a b
  | _, _ => false

def Json.beqList : List Json → List Json → Bool
  | [], [] => true
  | a :: as, b :: bs => Json.beq a b && Json.beqList as bs
  | _, _ => false

def Json.beqObj : List (String × Json) → List (String × Json) → Bool
  | [], [] => true
  | (k, v) :: as, (k', v') :: bs => k == k' && Json.beq v v' && Json.beqObj as bs
  | _, _ => false

end

instance : BEq Json := ⟨Json.beq⟩

/-- Python `d[key]` / `key in d` lookup on a dict in insertion order
(keys of a dict coming from `json.loads` are unique). -/
def assocLookup (kvs : List (String × Json)) (key : String) : Option Json :=
  match kvs with
  | [] => none
  | (k, v) :: rest => if k = key then some v else assocLookup rest key

/-! ## Python string primitives

The Python string operations the source uses (`startswith`, `replace`,
`strip`, `lower`, substring `in`, `join`, slicing), modelled on the
character list underlying a `String`, with the same observable behaviour
for the call sites in the source (non-empty patterns, ASCII keywords). -/

/-- Python `needle in hay` on lists of characters. -/
def isSubListOf (needle : List Char) : List Char → Bool
  | [] => needle.isEmpty
  | c :: cs => needle.isPrefixOf (c :: cs) || isSubListOf needle cs

/-- Python substring test `needle in hay`. -/
def strContains (hay needle : String) : Bool :=
  isSubListOf needle.data hay.data

/-- Python `s.startswith(pre)`. -/
def pyStartsWith (s pre : String) : Bool :=
  pre.data.isPrefixOf s.data

/-- Strip `pat` as a prefix of `cs`, if it is one. -/
def stripPre : List Char → List Char → Option (List Char)
  | [], cs => some cs
  | _, [] => none
  | p :: ps, c :: cs => if p = c then stripPre ps cs else none

/-- Fuel-indexed core of Python `str.replace`: scan left to right, replace
each non-overlapping occurrence of `pat` (non-empty at every call site). -/
def pyReplaceAux (pat rep : List Char) : Nat → List Char → List Char
  | 0, cs => cs
  | _, [] => []
  | fuel + 1, c :: cs =>
    match stripPre pat (c :: cs) with
    | some rest => rep ++ pyReplaceAux pat rep fuel rest
    | none => c :: pyReplaceAux pat rep fuel cs

/-- Python `s.replace(pat, rep)` (all occurrences, left to right). -/
def pyReplace (s pat rep : String) : String :=
  ⟨pyReplaceAux pat.data rep.data s.data.length s.data⟩

/-- Whitespace characters stripped by Python `str.strip()`. -/
def isPySpace (c : Char) : Bool :=
  c = ' ' || c = '\t' || c = '\n' || c = '\r' || c = '\x0b' || c = '\x0c'

/-- Python `s.strip()`. -/
def pyStrip (s : String) : String :=
  ⟨(((s.data.dropWhile isPySpace).reverse.dropWhile isPySpace).reverse)⟩

/-- Python `s.lower()` (ASCII case mapping, which covers every keyword and
extension the source compares against). -/
def lowerStr (s : String) : String :=
  ⟨s.data.map Char.toLower⟩

/-- Python `sep.join(xs)`. -/
def pyJoin (sep : String) : List String → String
  | [] => ""
  | [x] => x
  | x :: y :: xs => x ++ sep ++ pyJoin sep (y :: xs)

/-- Python slice `s[:n]`. -/
def pyTake (s : String) (n : Nat) : String :=
  ⟨s.data.take n⟩

mutual

/-- Python `repr(value)` for a parsed-JSON value (used for values nested
inside containers when a container is interpolated into an f-string). -/
def pyRepr : Json → String
  | .null => "None"
  | .bool b => if b then "True" else "False"
  | .num n => Int.repr n
  | .str s => "'" ++ s ++ "'"
  | .arr xs => "[" ++ pyReprList xs ++ "]"
  | .obj kvs => "\x7b" ++ pyReprObj kvs ++ "\x7d"

def pyReprList : List Json → String
  | [] => ""
  | [x] => pyRepr x
  | x :: y :: xs => pyRepr x ++ ", " ++ pyReprList (y :: xs)

def pyReprObj : List (String × Json) → String
  | [] => ""
  | [(k, v)] => "'" ++ k ++ "': " ++ pyRepr v
  | (k, v) :: p :: xs => "'" ++ k ++ "': " ++ pyRepr v ++ ", " ++ pyReprObj (p :: xs)

end

/-- Python `str(value)`: a string prints without quotes, every other value
prints as its `repr`. -/
def pyStr : Json → String
  | .str s => s
  | v => pyRepr v

/-- Duplicate removal modelling Python's `list(set(xs))`.  The set's
iteration order is unspecified in Python; this model keeps the last
occurrence of each element, and the theorems below only use properties
that are independent of the chosen order (membership). -/
def pyDedup : List String → List String
  | [] => []
  | s :: rest => if s ∈ rest then pyDedup rest else s :: pyDedup rest

/-! ## Grounded generator (`backend/rag.py`, class `RAGEngine`)

The Gemini call is abstracted as `backend : String → String → Except
String String` (system instructions, user instructions, either a raised
exception message or the response text) and the standard library's
`json.loads` as `jsonLoads : String → Except String Json` (either a
`JSONDecodeError` message or a parsed value).  Every other line of
`generate_test_cases` and its helpers is translated below. -/

/-- One retrieved chunk's metadata, as `retrieve_context` builds it; the
generator reads the two keys with `.get(key, 'unknown')`, so they are
optional here. -/
structure RetrievedMeta where
  source_document : Option String
  doc_type : Option String
deriving DecidableEq

/-- One retrieved chunk as consumed by `compile_context` /
`generate_test_cases` (the `distance` entry is a float the generator never
reads, so it is not modelled). -/
structure RetrievedChunk where
  text : String
  metadata : RetrievedMeta
deriving DecidableEq

/-- One `[Source idx: source (doc_type)]` block of `compile_context`. -/
def context_block (idx : Nat) (c : RetrievedChunk) : String :=
  "[Source " ++ Nat.repr idx ++ ": " ++ c.metadata.source_document.getD "unknown" ++
    " (" ++ c.metadata.doc_type.getD "unknown" ++ ")]\n" ++ c.text ++ "\n"

/-- Embedding of `RAGEngine.compile_context`. -/
def compile_context (chunks : List RetrievedChunk) : String :=
  pyJoin "\n---\n" (chunks.enum.map (fun p => context_block (p.1 + 1) p.2))

/-- The fixed system prompt of `RAGEngine.generate_test_cases`. -/
def rag_system_prompt : String :=
  "You are an expert QA automation engineer specializing in documentation-grounded test case generation.

CRITICAL RULES:
1. Generate test cases ONLY based on features explicitly mentioned in the provided documentation
2. Every test case MUST reference its source document(s) in the \"Grounded_In\" field
3. Do NOT hallucinate features, functionality, or behaviors not described in the docs
4. If information is insufficient, generate fewer test cases rather than making assumptions
5. Include both positive and negative test cases where documentation supports them
6. Use actual UI element names and flows from the documentation

IMPORTANT: You MUST respond with ONLY valid JSON. No explanation, no markdown, no code blocks. Just pure JSON.

OUTPUT FORMAT:
Return a valid JSON array of test case objects. Each test case must have:
[
  \x7b
    \"Test_ID\": \"TC-001\",
    \"Feature\": \"Feature name from docs\",
    \"Test_Scenario\": \"Clear scenario description\",
    \"Steps\": [\"Step 1\", \"Step 2\"],
    \"Expected_Result\": \"Expected outcome based on docs\",
    \"Grounded_In\": [\"document_name.md\"]
  \x7d
]

RESPONSE: Start with [ and end with ] only. No markdown formatting."

/-- The user prompt f-string of `RAGEngine.generate_test_cases`. -/
def rag_user_prompt (user_query context sources : String) : String :=
  "Based on the following documentation excerpts, " ++ user_query ++
  "\n\nDOCUMENTATION CONTEXT:\n" ++ context ++
  "\n\nAVAILABLE SOURCE DOCUMENTS:\n" ++ sources ++
  "\n\nGenerate test cases as a JSON array. Remember:
- Only use features explicitly mentioned in the documentation
- Reference source documents in \"Grounded_In\"
- Include test IDs starting from TC-001
- Focus on quality over quantity"

/-- Markdown-fence cleanup of the model response (`rag.py` lines 124-128). -/
def stripFences (content : String) : String :=
  if pyStartsWith content "```json" then
    pyStrip (pyReplace (pyReplace content "```json" "") "```" "")
  else if pyStartsWith content "```" then
    pyStrip (pyReplace content "```" "")
  else content

/-- Candidate-list selection from the parsed response (`rag.py` lines
132-139): an object with a `test_cases` / `testCases` key yields that
key's value, a bare array is taken as is, any other object becomes a
singleton array, anything else an empty list. -/
def select_candidates (parsed : Json) : Json :=
  match parsed with
  | .obj kvs =>
    match assocLookup kvs "test_cases" with
    | some v => v
    | none =>
      match assocLookup kvs "testCases" with
      | some v => v
      | none => .arr [.obj kvs]
  | .arr xs => .arr xs
  | _ => .arr []

/-- Python iteration `for tc in test_cases` over a parsed-JSON value: a
list yields its items, a string its characters, a dict its keys; anything
else raises `TypeError` (which the outer `except Exception` catches). -/
def pyIterate : Json → Except String (List Json)
  | .arr xs => .ok xs
  | .str s => .ok (s.data.map (fun c => .str ⟨[c]⟩))
  | .obj kvs => .ok (kvs.map (fun kv => .str kv.1))
  | _ => .error "TypeError: object is not iterable"

/-- The mandatory fields of `RAGEngine._validate_test_case`. -/
def required_fields : List String :=
  ["Test_ID", "Feature", "Test_Scenario", "Expected_Result", "Grounded_In"]

/-- Python `field in test_case`: key membership for a dict, substring for
a string, element membership for a list, `TypeError` otherwise. -/
def pyFieldMem (field : String) : Json → Except String Bool
  | .obj kvs => .ok (assocLookup kvs field).isSome
  | .str s => .ok (strContains s field)
  | .arr xs => .ok (xs.contains (.str field))
  | _ => .error "TypeError: argument of type is not iterable"

/-- Short-circuiting `all(field in test_case for field in fields)`. -/
def validateFields : List String → Json → Except String Bool
  | [], _ => .ok true
  | f :: fs, tc =>
    match pyFieldMem f tc with
    | .error e => .error e
    | .ok b => if b then validateFields fs tc else .ok false

/-- Embedding of `RAGEngine._validate_test_case`. -/
def validate_test_case (tc : Json) : Except String Bool :=
  validateFields required_fields tc

/-- The validation loop of `generate_test_cases` (lines 140-143),
accumulating `validated_cases`. -/
def validateLoop : List Json → List Json → Except String (List Json)
  | acc, [] => .ok acc
  | acc, tc :: rest =>
    match validate_test_case tc with
    | .error e => .error e
    | .ok b => validateLoop (if b then acc ++ [tc] else acc) rest

/-- The synthetic diagnostic record of the `json.JSONDecodeError` handler
(lines 146-153); `content` is the fence-stripped response text. -/
def mk_parse_error_case (je content : String) : Json :=
  .obj [("Test_ID", .str "ERROR"),
        ("Feature", .str "Parse Error"),
        ("Test_Scenario", .str ("Failed to parse LLM response: " ++ je)),
        ("Steps", .arr [.str "Check LLM output format", .str ("Raw content: " ++ pyTake content 200)]),
        ("Expected_Result", .str "Valid JSON"),
        ("Grounded_In", .arr [.str "system_error"])]

/-- The synthetic diagnostic record of the outer `except Exception`
handler (lines 154-162). -/
def mk_generation_error_case (e : String) : Json :=
  .obj [("Test_ID", .str "ERROR"),
        ("Feature", .str "Generation Error"),
        ("Test_Scenario", .str ("Failed to generate test cases: " ++ e)),
        ("Steps", .arr [.str "Check API key", .str "Check connection"]),
        ("Expected_Result", .str "Successful generation"),
        ("Grounded_In", .arr [.str "system_error"])]

/-- The response-processing stage of `generate_test_cases` (lines
124-153): strip fences, parse, select candidates, validate.  A
`JSONDecodeError` is caught here and converted to the parse-error record;
a `TypeError` from iteration/validation escapes as `.error` to the outer
handler. -/
def process_content (jsonLoads : String → Except String Json) (content₀ : String) :
    Except String (List Json) :=
  match jsonLoads (stripFences content₀) with
  | .error je => .ok [mk_parse_error_case je (stripFences content₀)]
  | .ok parsed =>
    match pyIterate (select_candidates parsed) with
    | .error e => .error e
    | .ok tcs => validateLoop [] tcs

/-- The `AVAILABLE SOURCE DOCUMENTS` list: `list(set(...))` over the
chunks' source documents. -/
def rag_source_docs (retrieved_chunks : List RetrievedChunk) : List String :=
  pyDedup (retrieved_chunks.map (fun c => c.metadata.source_document.getD "unknown"))

/-- The Gemini call of `generate_test_cases` applied to the prompts the
source builds (lines 116-122). -/
def rag_backend_result (backend : String → String → Except String String)
    (user_query : String) (retrieved_chunks : List RetrievedChunk) :
    Except String String :=
  backend rag_system_prompt
    (rag_user_prompt user_query (compile_context retrieved_chunks)
      (pyJoin ", " (rag_source_docs retrieved_chunks)))

/-- Embedding of `RAGEngine.generate_test_cases`: any exception of the
backend call or of the processing stage is caught by `except Exception`
and becomes the generation-error record; the function itself is total. -/
def generate_test_cases (backend : String → String → Except String String)
    (jsonLoads : String → Except String Json)
    (user_query : String) (retrieved_chunks : List RetrievedChunk) : List Json :=
  match rag_backend_result backend user_query retrieved_chunks with
  | .error e => [mk_generation_error_case e]
  | .ok content =>
    match process_content jsonLoads content with
    | .error e => [mk_generation_error_case e]
    | .ok validated_cases => validated_cases


/-! ## Selector extractor (`backend/selectors.py`, class `HTMLSelectorExtractor`)

BeautifulSoup's parse of an HTML document is modelled as a forest of
nodes; only the attributes the extractor reads (`id`, `name`, `type`,
`data-test`, the multi-valued `class`) are kept.  `soup.find_all()` is the
pre-order list of all elements, and `get_text(strip=True)` concatenates
the stripped text descendants — both exactly BeautifulSoup's behaviour on
this access pattern. -/

inductive Node where
  | text (s : String)
  | elem (tag : String) (idAttr nameAttr typeAttr dataTest : Option String)
      (classes : List String) (children : List Node)

/-- Tag name of an element (unused default for a text node, which
`find_all` never yields). -/
def Node.tagName : Node → String
  | .text _ => ""
  | .elem t _ _ _ _ _ _ => t

/-- Attribute `id` of an element, `element.get('id')`. -/
def Node.getId : Node → Option String
  | .text _ => none
  | .elem _ i _ _ _ _ _ => i

/-- Attribute `name` of an element, `element.get('name')`. -/
def Node.getName : Node → Option String
  | .text _ => none
  | .elem _ _ n _ _ _ _ => n

/-- Attribute `type` of an element, `element.get('type')`. -/
def Node.getType : Node → Option String
  | .text _ => none
  | .elem _ _ _ ty _ _ _ => ty

/-- Attribute `data-test` of an element, `element.get('data-test')`. -/
def Node.getDataTest : Node → Option String
  | .text _ => none
  | .elem _ _ _ _ dt _ _ => dt

/-- Class tokens of an element, `element.get('class', [])` (BeautifulSoup
returns the multi-valued attribute as a token list; absent means `[]`). -/
def Node.getClasses : Node → List String
  | .text _ => []
  | .elem _ _ _ _ _ cls _ => cls

mutual

/-- BeautifulSoup `element.get_text(strip=True)`: concatenation of the
stripped descendant strings. -/
def get_text_strip : Node → String
  | .text s => pyStrip s
  | .elem _ _ _ _ _ _ children => get_text_strip_list children

def get_text_strip_list : List Node → String
  | [] => ""
  | n :: ns => get_text_strip n ++ get_text_strip_list ns

end

mutual

/-- BeautifulSoup `soup.find_all()` restricted to one node: the node's
element descendants (itself included) in document pre-order. -/
def findAllNode : Node → List Node
  | .text _ => []
  | .elem t i nm ty dt cls children =>
    .elem t i nm ty dt cls children :: findAllNodes children

def findAllNodes : List Node → List Node
  | [] => []
  | n :: ns => findAllNode n ++ findAllNodes ns

end

/-- The per-element `element_info` dict: tag, selector strings in
extraction order, plus the `id` / `name` keys when those attributes are
truthy. -/
structure ElementInfo where
  tag : String
  selectors : List String
  idKey : Option String
  nameKey : Option String
deriving DecidableEq

/-- The `by_type` sub-dictionary of the extraction result. -/
structure ByType where
  ids : List String
  names : List String
  classes : List String
  data_test : List String
deriving DecidableEq

/-- The `semantic` sub-dictionary of the extraction result. -/
structure Semantic where
  buttons : List ElementInfo
  inputs : List ElementInfo
  forms : List ElementInfo
  cart_elements : List ElementInfo
  payment_elements : List ElementInfo
  shipping_elements : List ElementInfo
  discount_elements : List ElementInfo
  validation_elements : List ElementInfo
deriving DecidableEq

/-- The `selectors_data` dictionary built by `extract_selectors`. -/
structure SelectorsData where
  all_selectors : List String
  by_type : ByType
  semantic : Semantic
deriving DecidableEq

/-- Python truthiness of an optional attribute string (`if
element.get('id'):` is false for an absent or empty attribute). -/
def truthyOpt : Option String → Bool
  | some s => !s.isEmpty
  | none => false

/-- Lowered visible text, `element.get_text(strip=True).lower()`. -/
def textLower (e : Node) : String :=
  lowerStr (get_text_strip e)

/-- Lowered id, `element.get('id', '').lower()`. -/
def idLower (e : Node) : String :=
  lowerStr (e.getId.getD "")

/-- Lowered name, `element.get('name', '').lower()`. -/
def nameLower (e : Node) : String :=
  lowerStr (e.getName.getD "")

/-- Lowered joined class tokens, `' '.join(element.get('class', [])).lower()`. -/
def classLower (e : Node) : String :=
  lowerStr (pyJoin " " e.getClasses)

/-- The concatenation `element_id + element_name + element_class` that the
attribute-keyword checks of `_categorize_semantic` scan. -/
def attrConcat (e : Node) : String :=
  idLower e ++ nameLower e ++ classLower e

/-- Python `any(keyword in hay for keyword in keywords)`. -/
def anyKeyword (hay : String) (keywords : List String) : Bool :=
  keywords.any (fun k => strContains hay k)

/-- Buttons check of `_categorize_semantic`. -/
def stepButtons (e : Node) (info : ElementInfo) (d : SelectorsData) : SelectorsData :=
  if e.tagName = "button" || e.getType == some "button" || e.getType == some "submit" then
    { d with semantic.buttons := d.semantic.buttons ++ [info] }
  else d

/-- Inputs check of `_categorize_semantic`. -/
def stepInputs (e : Node) (info : ElementInfo) (d : SelectorsData) : SelectorsData :=
  if e.tagName = "input" || e.tagName = "textarea" || e.tagName = "select" then
    { d with semantic.inputs := d.semantic.inputs ++ [info] }
  else d

/-- Forms check of `_categorize_semantic`. -/
def stepForms (e : Node) (info : ElementInfo) (d : SelectorsData) : SelectorsData :=
  if e.tagName = "form" then
    { d with semantic.forms := d.semantic.forms ++ [info] }
  else d

/-- Cart bucket, visible-text keyword check. -/
def stepCartText (e : Node) (info : ElementInfo) (d : SelectorsData) : SelectorsData :=
  if anyKeyword (textLower e) ["cart", "add to cart", "quantity"] then
    { d with semantic.cart_elements := d.semantic.cart_elements ++ [info] }
  else d

/-- Cart bucket, attribute keyword check. -/
def stepCartAttr (e : Node) (info : ElementInfo) (d : SelectorsData) : SelectorsData :=
  if anyKeyword (attrConcat e) ["cart", "qty", "quantity", "total"] then
    { d with semantic.cart_elements := d.semantic.cart_elements ++ [info] }
  else d

/-- Payment bucket, visible-text keyword check. -/
def stepPayText (e : Node) (info : ElementInfo) (d : SelectorsData) : SelectorsData :=
  if anyKeyword (textLower e) ["payment", "pay", "credit", "paypal"] then
    { d with semantic.payment_elements := d.semantic.payment_elements ++ [info] }
  else d

/-- Payment bucket, attribute keyword check. -/
def stepPayAttr (e : Node) (info : ElementInfo) (d : SelectorsData) : SelectorsData :=
  if anyKeyword (attrConcat e) ["payment", "pay"] then
    { d with semantic.payment_elements := d.semantic.payment_elements ++ [info] }
  else d

/-- Shipping bucket, visible-text keyword check. -/
def stepShipText (e : Node) (info : ElementInfo) (d : SelectorsData) : SelectorsData :=
  if anyKeyword (textLower e) ["shipping", "standard", "express", "delivery"] then
    { d with semantic.shipping_elements := d.semantic.shipping_elements ++ [info] }
  else d

/-- Shipping bucket, attribute keyword check. -/
def stepShipAttr (e : Node) (info : ElementInfo) (d : SelectorsData) : SelectorsData :=
  if anyKeyword (attrConcat e) ["shipping", "delivery"] then
    { d with semantic.shipping_elements := d.semantic.shipping_elements ++ [info] }
  else d

/-- Discount bucket, visible-text keyword check. -/
def stepDiscText (e : Node) (info : ElementInfo) (d : SelectorsData) : SelectorsData :=
  if anyKeyword (textLower e) ["discount", "coupon", "promo"] then
    { d with semantic.discount_elements := d.semantic.discount_elements ++ [info] }
  else d

/-- Discount bucket, attribute keyword check (`selectors.py` lines
119-120); note the keyword list contains `"code"`. -/
def stepDiscAttr (e : Node) (info : ElementInfo) (d : SelectorsData) : SelectorsData :=
  if anyKeyword (attrConcat e) ["discount", "coupon", "promo", "code"] then
    { d with semantic.discount_elements := d.semantic.discount_elements ++ [info] }
  else d

/-- Validation bucket, class-token keyword check. -/
def stepValidation (e : Node) (info : ElementInfo) (d : SelectorsData) : SelectorsData :=
  if anyKeyword (classLower e) ["error", "invalid", "validation"] then
    { d with semantic.validation_elements := d.semantic.validation_elements ++ [info] }
  else d

/-- Embedding of `HTMLSelectorExtractor._categorize_semantic`: the twelve
independent checks of the source, applied in source order. -/
def categorize_semantic (e : Node) (info : ElementInfo) (d : SelectorsData) : SelectorsData :=
  stepValidation e info (stepDiscAttr e info (stepDiscText e info
    (stepShipAttr e info (stepShipText e info (stepPayAttr e info
      (stepPayText e info (stepCartAttr e info (stepCartText e info
        (stepForms e info (stepInputs e info (stepButtons e info d)))))))))))

/-- Attribute-extraction pass of `extract_selectors` for one element:
build `element_info` and append the element's selectors to `by_type` and
`all_selectors`, then categorize. -/
def processElement (e : Node) (d : SelectorsData) : SelectorsData :=
  let info0 : ElementInfo := { tag := e.tagName, selectors := [], idKey := none, nameKey := none }
  let step1 : SelectorsData × ElementInfo :=
    if truthyOpt e.getId then
      let sel := "#" ++ e.getId.getD ""
      ({ d with by_type.ids := d.by_type.ids ++ [sel],
                all_selectors := d.all_selectors ++ [sel] },
       { info0 with selectors := info0.selectors ++ [sel], idKey := e.getId })
    else (d, info0)
  let step2 : SelectorsData × ElementInfo :=
    if truthyOpt e.getName then
      let sel := "[name='" ++ e.getName.getD "" ++ "']"
      ({ step1.1 with by_type.names := step1.1.by_type.names ++ [sel],
                      all_selectors := step1.1.all_selectors ++ [sel] },
       { step1.2 with selectors := step1.2.selectors ++ [sel], nameKey := e.getName })
    else step1
  let step3 : SelectorsData × ElementInfo :=
    if e.getClasses.isEmpty then step2
    else
      e.getClasses.foldl
        (fun acc cls =>
          let sel := "." ++ cls
          ({ acc.1 with by_type.classes := acc.1.by_type.classes ++ [sel],
                        all_selectors := acc.1.all_selectors ++ [sel] },
           { acc.2 with selectors := acc.2.selectors ++ [sel] }))
        step2
  let step4 : SelectorsData × ElementInfo :=
    if truthyOpt e.getDataTest then
      let sel := "[data-test='" ++ e.getDataTest.getD "" ++ "']"
      ({ step3.1 with by_type.data_test := step3.1.by_type.data_test ++ [sel],
                      all_selectors := step3.1.all_selectors ++ [sel] },
       { step3.2 with selectors := step3.2.selectors ++ [sel] })
    else step3
  categorize_semantic e step4.2 step4.1

/-- The empty `selectors_data` dictionary (`selectors.py` lines 20-38). -/
def initialSelectorsData : SelectorsData :=
  ⟨[], ⟨[], [], [], []⟩, ⟨[], [], [], [], [], [], [], []⟩⟩

/-- The `for element in all_elements` loop of `extract_selectors`. -/
def extractLoop : List Node → SelectorsData → SelectorsData
  | [], d => d
  | e :: es, d => extractLoop es (processElement e d)

/-- Embedding of `HTMLSelectorExtractor.extract_selectors` on a parsed
document (a forest of nodes): process every element in document order,
then deduplicate the flat selector list (`list(set(...))`). -/
def extract_selectors (doc : List Node) : SelectorsData :=
  let d := extractLoop (findAllNodes doc) initialSelectorsData
  { d with all_selectors := pyDedup d.all_selectors }

/-- One `tag: comma-joined selectors` line of `format_for_storage`. -/
def fmtInfoLine (i : ElementInfo) : String :=
  "  " ++ i.tag ++ ": " ++ pyJoin ", " i.selectors

/-- Embedding of `HTMLSelectorExtractor.format_for_storage`. -/
def format_for_storage (d : SelectorsData) : String :=
  pyJoin "\n"
    (["=== HTML SELECTORS ===\n",
      "Total unique selectors: " ++ Nat.repr d.all_selectors.length ++ "\n",
      "\n--- Buttons ---"] ++ d.semantic.buttons.map fmtInfoLine ++
     ["\n--- Input Fields ---"] ++ d.semantic.inputs.map fmtInfoLine ++
     ["\n--- Cart Elements ---"] ++ d.semantic.cart_elements.map fmtInfoLine ++
     ["\n--- Payment Elements ---"] ++ d.semantic.payment_elements.map fmtInfoLine ++
     ["\n--- Shipping Elements ---"] ++ d.semantic.shipping_elements.map fmtInfoLine ++
     ["\n--- Discount Elements ---"] ++ d.semantic.discount_elements.map fmtInfoLine)


/-! ## Document ingestion (`backend/ingest.py`, class `DocumentIngestion`)

External collaborators are bundled in `ParseEnv`: PyMuPDF text extraction,
the markdown renderer, UTF-8 decoding (strict and `errors='ignore'`),
BeautifulSoup (both its visible-text extraction and the parse handed to
the selector extractor) and `json.loads`.  The recursive JSON flattening,
the extension dispatch, the chunker and the batch loop are translated
from the source; the mutable `self.chunk_counter` is threaded explicitly.
`ingestLoop` additionally returns the list of chunks produced by
`chunk_text` during the batch (ghost instrumentation used only to state
batch-wide properties; it does not alter any computed field). -/

/-- Index of the last `'.'` in a character list (Python `str.rfind('.')`). -/
def lastDotIdx : List Char → Option Nat
  | [] => none
  | c :: cs =>
    match lastDotIdx cs with
    | some i => some (i + 1)
    | none => if c = '.' then some 0 else none

/-- Python `pathlib.Path(name).suffix` for a plain filename: the part from
the last dot, provided that dot is neither the first nor the last
character. -/
def pySuffix (name : String) : String :=
  match lastDotIdx name.data with
  | none => ""
  | some i => if 0 < i ∧ i + 1 < name.data.length then ⟨name.data.drop i⟩ else ""

/-- Python `pathlib.Path(name).stem` for a plain filename. -/
def pyStem (name : String) : String :=
  match lastDotIdx name.data with
  | none => name
  | some i => if 0 < i ∧ i + 1 < name.data.length then ⟨name.data.take i⟩ else name

mutual

/-- Embedding of `DocumentIngestion._flatten_json`: dotted keys for
objects, bracketed indices for arrays, depth-first in input order, one
`path: value` line per scalar, the per-level lines joined by newlines. -/
def flatten_json : Json → String → String
  | .obj kvs, prefx => pyJoin "\n" (flattenObjLines kvs prefx)
  | .arr xs, prefx => pyJoin "\n" (flattenArrLines xs 0 prefx)
  | v, _ => pyStr v

def flattenObjLines : List (String × Json) → String → List String
  | [], _ => []
  | (key, value) :: rest, prefx =>
    let new_path := if prefx = "" then key else prefx ++ "." ++ key
    (match value with
     | .obj kvs => [new_path ++ ":", flatten_json (.obj kvs) new_path]
     | .arr xs => [new_path ++ ":", flatten_json (.arr xs) new_path]
     | v => [new_path ++ ": " ++ pyStr v]) ++ flattenObjLines rest prefx

def flattenArrLines : List Json → Nat → String → List String
  | [], _, _ => []
  | item :: rest, idx, prefx =>
    let new_path := prefx ++ "[" ++ Nat.repr idx ++ "]"
    (match item with
     | .obj kvs => [flatten_json (.obj kvs) new_path]
     | .arr xs => [flatten_json (.arr xs) new_path]
     | v => [new_path ++ ": " ++ pyStr v]) ++ flattenArrLines rest (idx + 1) prefx

end

/-- External collaborators of the ingestion pipeline. -/
structure ParseEnv where
  parse_pdf : ByteArray → Except String String
  md_render : String → String
  decode_utf8 : ByteArray → Except String String
  decode_ignore : ByteArray → String
  soup_text : String → String
  parse_dom : String → List Node
  json_loads : String → Except String Json

/-- Embedding of `DocumentIngestion._parse_json`: flatten parsed JSON,
fall back to the raw text on `JSONDecodeError`. -/
def parse_json_doc (env : ParseEnv) (content : String) : String :=
  match env.json_loads content with
  | .ok data => flatten_json data ""
  | .error _ => content

/-- Embedding of `DocumentIngestion._parse_html`: visible text, a blank
line, then the formatted selector catalog. -/
def parse_html_doc (env : ParseEnv) (content : String) : String :=
  env.soup_text content ++ "\n\n" ++ format_for_storage (extract_selectors (env.parse_dom content))

/-- Embedding of `DocumentIngestion.parse_document`: extension dispatch to
`(text_content, doc_type)`; an unsupported extension decodes best-effort
and is tagged `spec`. -/
def parse_document (env : ParseEnv) (file_path : String) (file_content : ByteArray)
    (filename : String) : Except String (String × String) :=
  let ext := lowerStr (pySuffix filename)
  if ext = ".pdf" then
    match env.parse_pdf file_content with
    | .error e => .error e
    | .ok t => .ok (t, "spec")
  else if ext = ".md" then
    match env.decode_utf8 file_content with
    | .error e => .error e
    | .ok s => .ok (env.md_render s, "spec")
  else if ext = ".txt" then
    match env.decode_utf8 file_content with
    | .error e => .error e
    | .ok s => .ok (s, if strContains (lowerStr filename) "ui" ||
                       strContains (lowerStr filename) "ux" then "ui_ux" else "spec")
  else if ext = ".json" then
    match env.decode_utf8 file_content with
    | .error e => .error e
    | .ok s => .ok (parse_json_doc env s, "api")
  else if ext = ".html" || ext = ".htm" then
    match env.decode_utf8 file_content with
    | .error e => .error e
    | .ok s => .ok (parse_html_doc env s, "html_dom")
  else
    .ok (env.decode_ignore file_content, "spec")

/-- One chunk dictionary built by `chunk_text`. -/
structure ChunkDict where
  chunk_id : String
  text : String
  source_document : String
  doc_type : String
  chunk_index : Nat
  has_selectors : Option Bool
deriving DecidableEq

/-- The chunk id f-string `f"{Path(source_document).stem}_{self.chunk_counter}"`. -/
def mkChunkId (source_document : String) (counter : Nat) : String :=
  pyStem source_document ++ "_" ++ Nat.repr counter

/-- The `has_selectors` heuristic for `html_dom` chunks. -/
def hasSelectorsFlag (chunk : String) : Bool :=
  strContains chunk "SELECTOR" || strContains chunk "#" || strContains chunk "class="

/-- The `for idx, chunk in enumerate(chunks)` loop of `chunk_text`:
`counter` is the engine's running `chunk_counter`, incremented before
each id is formed; `idx` is the per-document 0-based index. -/
def chunkLoop (source_document doc_type : String) :
    Nat → Nat → List String → List ChunkDict × Nat
  | counter, _, [] => ([], counter)
  | counter, idx, chunk :: rest =>
    let counter' := counter + 1
    let d : ChunkDict :=
      { chunk_id := mkChunkId source_document counter',
        text := chunk,
        source_document := source_document,
        doc_type := doc_type,
        chunk_index := idx,
        has_selectors := if doc_type = "html_dom" then some (hasSelectorsFlag chunk) else none }
    let tail := chunkLoop source_document doc_type counter' (idx + 1) rest
    (d :: tail.1, tail.2)

/-- Embedding of `DocumentIngestion.chunk_text`; the langchain splitter is
the abstract `split`. -/
def chunk_text (split : String → List String) (counter : Nat)
    (text source_document doc_type : String) : List ChunkDict × Nat :=
  chunkLoop source_document doc_type counter 0 (split text)

/-- Embedding of `DocumentIngestion.embed_and_store`; embedding plus
ChromaDB `add` are the abstract `store`, whose failure raises. -/
def embed_and_store (store : List ChunkDict → Except String Unit)
    (chunks : List ChunkDict) : Except String Nat :=
  if chunks.isEmpty then .ok 0
  else
    match store chunks with
    | .error e => .error e
    | .ok _ => .ok chunks.length

/-- One entry of `stats['files_processed']`: a success records filename,
doc type and stored-chunk count; a failure records filename and the
exception text. -/
inductive FileEntry where
  | ok (filename doc_type : String) (chunks : Nat)
  | err (filename error : String)
deriving DecidableEq

/-- Filename carried by a `files_processed` entry. -/
def FileEntry.filenameOf : FileEntry → String
  | .ok fn _ _ => fn
  | .err fn _ => fn

/-- Whether a `files_processed` entry is an error entry. -/
def FileEntry.isErr : FileEntry → Bool
  | .ok .. => false
  | .err .. => true

/-- The `stats` dictionary of `ingest_documents`. -/
structure IngestStats where
  total_files : Nat
  total_chunks : Nat
  files_processed : List FileEntry
  doc_types : List (String × Nat)
deriving DecidableEq

/-- The initial `stats` dictionary (`ingest.py` lines 188-193). -/
def emptyStats : IngestStats := ⟨0, 0, [], []⟩

/-- Python `stats['doc_types'][doc_type] = stats['doc_types'].get(doc_type, 0) + 1`
on an insertion-ordered dict. -/
def bumpDocType : List (String × Nat) → String → List (String × Nat)
  | [], k => [(k, 1)]
  | (k', v) :: rest, k =>
    if k' = k then (k', v + 1) :: rest else (k', v) :: bumpDocType rest k

/-- Result of a batch run: the summary statistics, the final
`chunk_counter`, and (ghost) every chunk `chunk_text` produced. -/
structure IngestOut where
  stats : IngestStats
  counter : Nat
  produced : List ChunkDict
deriving DecidableEq

/-- The `for file_path, file_content, filename in uploaded_files` loop of
`ingest_documents`: a per-file exception (from parsing or from
embedding/storage) appends an error entry and the loop continues. -/
def ingestLoop (env : ParseEnv) (split : String → List String)
    (store : List ChunkDict → Except String Unit) :
    IngestStats → Nat → List (String × ByteArray × String) → IngestOut
  | stats, counter, [] => ⟨stats, counter, []⟩
  | stats, counter, (file_path, file_content, filename) :: rest =>
    match parse_document env file_path file_content filename with
    | .error e =>
      ingestLoop env split store
        { stats with files_processed := stats.files_processed ++ [.err filename e] }
        counter rest
    | .ok (text_content, doc_type) =>
      let r := chunk_text split counter text_content filename doc_type
      match embed_and_store store r.1 with
      | .error e =>
        let out := ingestLoop env split store
          { stats with files_processed := stats.files_processed ++ [.err filename e] }
          r.2 rest
        { out with produced := r.1 ++ out.produced }
      | .ok num_stored =>
        let out := ingestLoop env split store
          { stats with
              total_files := stats.total_files + 1,
              total_chunks := stats.total_chunks + num_stored,
              files_processed := stats.files_processed ++ [.ok filename doc_type num_stored],
              doc_types := bumpDocType stats.doc_types doc_type }
          r.2 rest
        { out with produced := r.1 ++ out.produced }

/-- Embedding of `DocumentIngestion.ingest_documents`; `counter` is the
engine's `chunk_counter` at the start of the batch (0 for a fresh
engine). -/
def ingest_documents (env : ParseEnv) (split : String → List String)
    (store : List ChunkDict → Except String Unit) (counter : Nat)
    (uploaded_files : List (String × ByteArray × String)) : IngestOut :=
  ingestLoop env split store emptyStats counter uploaded_files

/-! ## Script synthesizer (`backend/script_generation.py`, class `SeleniumScriptGenerator`)

The two knowledge-store retrievals are abstracted at their result
boundary: `selector_docs` is the document column of the `html_dom`
filtered query (`none` when the collection is missing), `doc_results` the
`(source_document, text)` rows of the supporting-doc query.  `json.dumps`
is the abstract `dumps`.  Everything after those boundaries is translated
from the source. -/

/-- Embedding of `SeleniumScriptGenerator.retrieve_html_selectors`:
concatenate the retrieved selector documents, `""` when the collection is
missing or the query returns nothing. -/
def retrieve_html_selectors (selector_docs : Option (List String)) : String :=
  match selector_docs with
  | none => ""
  | some docs => docs.foldl (fun acc doc => acc ++ doc ++ "\n\n") ""

/-- Embedding of `SeleniumScriptGenerator.retrieve_relevant_docs`. -/
def retrieve_relevant_docs (doc_results : Option (List (Option String × String))) : String :=
  match doc_results with
  | none => ""
  | some rows =>
    rows.foldl (fun acc row => acc ++ "[" ++ row.1.getD "unknown" ++ "]\n" ++ row.2 ++ "\n\n") ""

/-- The fixed system prompt of `generate_script`. -/
def script_system_prompt : String :=
  "You are an expert Selenium automation engineer specializing in writing clean, production-ready test scripts.

CRITICAL REQUIREMENTS:
1. Use ONLY selectors found in the provided HTML selector context
2. Implement WebDriverWait for all element interactions (explicit waits)
3. Include proper error handling and logging
4. Use modular functions with clear docstrings
5. Add comments linking steps back to documentation
6. Use Chrome WebDriver with proper initialization
7. Make scripts runnable and self-contained
8. Follow Python best practices (PEP 8)

SCRIPT STRUCTURE:
- Import statements
- Helper functions
- Main test function (run_test)
- WebDriver setup with proper configuration
- Clean teardown

OUTPUT:
Generate a complete, runnable Python script. Do not add markdown code fences or explanations - just pure Python code."

/-- The user prompt f-string of `generate_script`. -/
def script_user_prompt (test_case_str selector_context doc_context : String) : String :=
  "Generate a Selenium Python script for this test case:\n\nTEST CASE:\n" ++ test_case_str ++
  "\n\nHTML SELECTORS (use these exact selectors):\n" ++ selector_context ++
  "\n\nDOCUMENTATION CONTEXT:\n" ++ doc_context ++
  "\n\nRequirements:
- Use WebDriverWait with explicit waits (10-20 seconds timeout)
- Match selectors from the HTML context exactly
- Include comments referencing the source documents from Grounded_In
- Implement the test steps precisely as described
- Add assertions for the expected result
- Handle potential errors gracefully
- Make the script production-ready and executable

Generate the complete Python script now."

/-- Markdown-fence cleanup of the script response (`script_generation.py`
lines 125-128, the ```python variant). -/
def stripFencesScript (script : String) : String :=
  if pyStartsWith script "```python" then
    pyStrip (pyReplace (pyReplace script "```python" "") "```" "")
  else if pyStartsWith script "```" then
    pyStrip (pyReplace script "```" "")
  else script

/-- Python `test_case.get(key, default)` on the test-case dict. -/
def pyGet (tc : List (String × Json)) (key : String) (dflt : Json) : Json :=
  (assocLookup tc key).getD dflt

/-- Collect the items of a joined list, failing like Python's `str.join`
on a non-string item. -/
def pyJoinStrList : List Json → Except String (List String)
  | [] => .ok []
  | .str s :: rest =>
    match pyJoinStrList rest with
    | .error e => .error e
    | .ok t => .ok (s :: t)
  | _ :: _ => .error "TypeError: sequence item: expected str instance"

/-- Python `', '.join(value)` on a parsed value: a list of strings joins
its items, a string its characters, a dict its keys; anything else raises
`TypeError` (caught by the surrounding `except Exception`). -/
def pyCommaJoin : Json → Except String String
  | .arr xs =>
    match pyJoinStrList xs with
    | .error e => .error e
    | .ok ss => .ok (pyJoin ", " ss)
  | .str s => .ok (pyJoin ", " (s.data.map (fun c => ⟨[c]⟩)))
  | .obj kvs => .ok (pyJoin ", " (kvs.map (fun kv => kv.1)))
  | _ => .error "TypeError: can only join an iterable"

/-- The provenance header prepended to a successful script
(`script_generation.py` lines 129-135). -/
def script_header (test_case : List (String × Json)) : Except String String :=
  match pyCommaJoin (pyGet test_case "Grounded_In" (.arr [])) with
  | .error e => .error e
  | .ok grounded =>
    .ok ("#!/usr/bin/env python3\n# Auto-generated Selenium test script\n# Test ID: " ++
      pyStr (pyGet test_case "Test_ID" (.str "Unknown")) ++ "\n# Feature: " ++
      pyStr (pyGet test_case "Feature" (.str "Unknown")) ++ "\n# Grounded in: " ++
      grounded ++ "\n\n")

/-- The self-contained fallback script of the `except Exception` handler
(`script_generation.py` lines 138-165). -/
def error_script (test_case : List (String × Json)) (e : String) : String :=
  "#!/usr/bin/env python3\n# ERROR: Failed to generate script\n# Error: " ++ e ++
  "\n\nfrom selenium import webdriver\nfrom selenium.webdriver.common.by import By\nfrom selenium.webdriver.support.ui import WebDriverWait\nfrom selenium.webdriver.support import expected_conditions as EC\n\ndef run_test():\n    '''\n    Test ID: " ++
  pyStr (pyGet test_case "Test_ID" (.str "Unknown")) ++ "\n    Feature: " ++
  pyStr (pyGet test_case "Feature" (.str "Unknown")) ++
  "\n    \n    ERROR: Script generation failed. Please check:\n    1. Gemini API key is set correctly\n    2. Network connection is stable\n    3. API quota is available\n    \n    Error details: " ++
  e ++ "\n    '''\n    print(\"ERROR: Script generation failed\")\n    print(\"Error details: " ++
  e ++ "\")\n\nif __name__ == \"__main__\":\n    run_test()\n"

/-- Embedding of `SeleniumScriptGenerator.generate_script`: build the
prompts, call the backend, strip fences and prepend the provenance
header; any exception (backend failure, or a `TypeError` while building
the header) is caught and yields the fallback script.  The function is
total. -/
def generate_script (backend : String → String → Except String String)
    (dumps : List (String × Json) → String)
    (selector_docs : Option (List String))
    (doc_results : Option (List (Option String × String)))
    (test_case : List (String × Json)) : String :=
  let selector_context := retrieve_html_selectors selector_docs
  let doc_context := retrieve_relevant_docs doc_results
  let test_case_str := dumps test_case
  match backend script_system_prompt
      (script_user_prompt test_case_str selector_context doc_context) with
  | .error e => error_script test_case e
  | .ok response =>
    let script := stripFencesScript response
    match script_header test_case with
    | .ok header => header ++ script
    | .error e => error_script test_case e

/-! ## Small observers and concrete stubs used in the statements below -/

/-- Field lookup on a test-case record: the dict's value at `key`, `none`
for a missing key or a non-dict record. -/
def jsonField (tc : Json) (key : String) : Option Json :=
  match tc with
  | .obj kvs => assocLookup kvs key
  | _ => none

/-- Whether a parsed value is a dict. -/
def Json.isObj : Json → Bool
  | .obj _ => true
  | _ => false

/-- Whether a parsed value is a scalar (neither dict nor list). -/
def Json.isScalar : Json → Bool
  | .obj _ => false
  | .arr _ => false
  | _ => true

/-- All five mandatory fields of `_validate_test_case` are present. -/
def hasAllRequired (tc : Json) : Bool :=
  required_fields.all (fun f => (jsonField tc f).isSome)

/-- Concrete external collaborators used to instantiate batch theorems on
concrete inputs: PDF parsing fails, UTF-8 decoding yields `"hello"`,
best-effort decoding yields `"ignored"`. -/
def testParseEnv : ParseEnv :=
  ⟨fun _ => .error "pdf boom", fun s => s, fun _ => .ok "hello", fun _ => "ignored",
   fun s => s, fun _ => [], fun _ => .error "not json"⟩

/-- Concrete splitter: one chunk per text. -/
def splitStub : String → List String := fun s => [s]

/-- Concrete store that always succeeds. -/
def storeStub : List ChunkDict → Except String Unit := fun _ => .ok ()

/-! ## Decimal representation of the chunk counter

The chunk id interpolates the running counter with `str(counter)`, i.e.
`Nat.repr`.  The lemmas below establish that a decimal representation
contains no underscore and determines the number, which is what makes the
`{stem}_{counter}` ids of one batch pairwise distinct. -/

/-- Most-significant-first decimal digits of a natural number; the
fuel-free description of `Nat.toDigits 10`. -/

def digitsMSB (n : Nat) : List Char :=
  if _h : n < 10 then [Nat.digitChar n]
  else digitsMSB (n / 10) ++ [Nat.digitChar (n % 10)]
termination_by n
decreasing_by exact Nat.div_lt_self (by omega) (by omega)

/-- Value of a decimal digit character. -/
def digitVal (c : Char) : Nat := c.toNat - '0'.toNat

/-- Value of a most-significant-first decimal digit list. -/
def evalDigits (cs : List Char) : Nat := cs.foldl (fun a c => a * 10 + digitVal c) 0

/-- Batch invariant tying the produced chunks to the counter window
starting at `c`: ids pair each chunk's source stem with the consecutive
counters `c+1, …`, and the final counter is the start plus the number of
produced chunks. -/
def ProducedOK (c : Nat) (out : IngestOut) : Prop :=
  out.produced.map ChunkDict.chunk_id =
    List.zipWith mkChunkId (out.produced.map ChunkDict.source_document)
      (List.range' (c + 1) out.produced.length) ∧
  out.counter = c + out.produced.length

theorem digitsMSB_of_lt (n : Nat) (h : n < 10) : digitsMSB n = [Nat.digitChar n] := by
  rw [digitsMSB]
  simp [h]

theorem digitsMSB_of_ge (n : Nat) (h : ¬ n < 10) :
    digitsMSB n = digitsMSB (n / 10) ++ [Nat.digitChar (n % 10)] := by
  conv_lhs => rw [digitsMSB]
  simp [h]

theorem toDigitsCore_eq_digitsMSB :
    ∀ (fuel n : Nat) (acc : List Char), n < fuel →
      Nat.toDigitsCore 10 fuel n acc = digitsMSB n ++ acc := by
  intro fuel
  induction fuel with
  | zero => intro n acc h; omega
  | succ f ih =>
    intro n acc h
    rw [Nat.toDigitsCore]
    by_cases h10 : n / 10 = 0
    · have hn : n < 10 := by
        rcases Nat.lt_or_ge n 10 with hlt | hge
        · exact hlt
        · exfalso
          have : 1 ≤ n / 10 := Nat.one_le_div_iff (by omega) |>.2 hge
          omega
      simp only [h10, if_true]
      rw [digitsMSB_of_lt n hn, Nat.mod_eq_of_lt hn]
      rfl
    · have hge : ¬ n < 10 := by
        intro hlt
        exact h10 (Nat.div_eq_of_lt hlt)
      have hdiv : n / 10 < n := Nat.div_lt_self (by omega) (by omega)
      simp only [h10, if_false]
      rw [ih (n / 10) _ (by omega), digitsMSB_of_ge n hge]
      simp

theorem repr_data_eq_digitsMSB (n : Nat) : (Nat.repr n).data = digitsMSB n := by
  have h1 : Nat.repr n = (Nat.toDigits 10 n).asString := rfl
  have h2 : Nat.toDigits 10 n = Nat.toDigitsCore 10 (n + 1) n [] := rfl
  rw [h1, h2, toDigitsCore_eq_digitsMSB (n + 1) n [] (Nat.lt_succ_self n)]
  simp [List.asString]

theorem digitVal_digitChar : ∀ m, m < 10 → digitVal (Nat.digitChar m) = m := by decide

theorem foldl_eval_append (a : List Char) (c : Char) (i : Nat) :
    List.foldl (fun a c => a * 10 + digitVal c) i (a ++ [c]) =
      (List.foldl (fun a c => a * 10 + digitVal c) i a) * 10 + digitVal c := by
  rw [List.foldl_append]
  rfl

theorem evalDigits_digitsMSB : ∀ n, evalDigits (digitsMSB n) = n := by
  intro n
  induction n using Nat.strong_induction_on with
  | _ n ih =>
    by_cases h : n < 10
    · rw [digitsMSB_of_lt n h]
      show 0 * 10 + digitVal (Nat.digitChar n) = n
      rw [digitVal_digitChar n h]
      omega
    · rw [digitsMSB_of_ge n h]
      have hdiv : n / 10 < n := Nat.div_lt_self (by omega) (by omega)
      unfold evalDigits
      rw [foldl_eval_append, digitVal_digitChar _ (Nat.mod_lt _ (by omega))]
      have := ih _ hdiv
      unfold evalDigits at this
      rw [this]
      omega

theorem reprNat_data_inj {m n : Nat} (h : (Nat.repr m).data = (Nat.repr n).data) : m = n := by
  rw [repr_data_eq_digitsMSB, repr_data_eq_digitsMSB] at h
  have := congrArg evalDigits h
  rwa [evalDigits_digitsMSB, evalDigits_digitsMSB] at this

theorem digitChar_lt_16 : ∀ m, m < 16 → Nat.digitChar m ≠ '_' := by decide

theorem digitChar_ge_16 (m : Nat) (h : 16 ≤ m) : Nat.digitChar m = '*' := by
  unfold Nat.digitChar
  have h0 : ¬ m = 0 := by omega
  have h1 : ¬ m = 1 := by omega
  have h2 : ¬ m = 2 := by omega
  have h3 : ¬ m = 3 := by omega
  have h4 : ¬ m = 4 := by omega
  have h5 : ¬ m = 5 := by omega
  have h6 : ¬ m = 6 := by omega
  have h7 : ¬ m = 7 := by omega
  have h8 : ¬ m = 8 := by omega
  have h9 : ¬ m = 9 := by omega
  have ha : ¬ m = 10 := by omega
  have hb : ¬ m = 11 := by omega
  have hc : ¬ m = 12 := by omega
  have hd : ¬ m = 13 := by omega
  have he : ¬ m = 14 := by omega
  have hf : ¬ m = 15 := by omega
  simp only [h0, h1, h2, h3, h4, h5, h6, h7, h8, h9, ha, hb, hc, hd, he, hf, if_false]

theorem digitChar_ne_underscore (m : Nat) : Nat.digitChar m ≠ '_' := by
  by_cases h : m < 16
  · exact digitChar_lt_16 m h
  · rw [digitChar_ge_16 m (by omega)]
    decide

theorem mem_digitsMSB (n : Nat) : ∀ c ∈ digitsMSB n, ∃ m, c = Nat.digitChar m := by
  induction n using Nat.strong_induction_on with
  | _ n ih =>
    by_cases h : n < 10
    · rw [digitsMSB_of_lt n h]
      intro c hc
      simp at hc
      exact ⟨n, hc⟩
    · rw [digitsMSB_of_ge n h]
      intro c hc
      rcases List.mem_append.1 hc with h1 | h2
      · exact ih _ (Nat.div_lt_self (by omega) (by omega)) c h1
      · simp at h2
        exact ⟨n % 10, h2⟩

theorem underscore_not_mem_repr (n : Nat) : '_' ∉ (Nat.repr n).data := by
  rw [repr_data_eq_digitsMSB]
  intro hmem
  obtain ⟨m, hm⟩ := mem_digitsMSB n _ hmem
  exact digitChar_ne_underscore m hm.symm

theorem takeWhile_underscore {x y : List Char} (hx : '_' ∉ x) :
    (x ++ '_' :: y).takeWhile (fun c => c != '_') = x := by
  induction x with
  | nil => simp [List.takeWhile_cons]
  | cons a as ih =>
    have ha : a ≠ '_' := by
      intro hcon
      exact hx (hcon ▸ List.mem_cons_self a as)
    have has : '_' ∉ as := fun hmem => hx (List.mem_cons_of_mem a hmem)
    simp [List.takeWhile_cons, ha, ih has]

theorem underscore_split_eq {x₁ y₁ x₂ y₂ : List Char}
    (h₁ : '_' ∉ x₁) (h₂ : '_' ∉ x₂)
    (h : x₁ ++ '_' :: y₁ = x₂ ++ '_' :: y₂) : x₁ = x₂ := by
  have e1 := takeWhile_underscore (y := y₁) h₁
  rw [h, takeWhile_underscore (y := y₂) h₂] at e1
  exact e1.symm

theorem append_underscore_repr_inj {a b : String} {n₁ n₂ : Nat}
    (h : a ++ "_" ++ Nat.repr n₁ = b ++ "_" ++ Nat.repr n₂) : n₁ = n₂ := by
  have hd : ((a ++ "_") ++ Nat.repr n₁).data = ((b ++ "_") ++ Nat.repr n₂).data := by
    rw [h]
  simp only [String.data_append] at hd
  have hrev := congrArg List.reverse hd
  simp only [List.reverse_append, List.reverse_cons, List.reverse_nil, List.nil_append,
    List.singleton_append, List.append_assoc] at hrev
  have hx := underscore_split_eq
    (fun hmem => underscore_not_mem_repr n₁ (List.mem_reverse.1 hmem))
    (fun hmem => underscore_not_mem_repr n₂ (List.mem_reverse.1 hmem)) hrev
  have hdata : (Nat.repr n₁).data = (Nat.repr n₂).data := by
    have := congrArg List.reverse hx
    simpa using this
  exact reprNat_data_inj hdata

/-- Unfolded form of `mkChunkId` equality: the counters agree (the
decimal part after the last underscore determines the counter). -/
theorem mkChunkId_counter_inj {a b : String} {n₁ n₂ : Nat}
    (h : mkChunkId a n₁ = mkChunkId b n₂) : n₁ = n₂ := by
  unfold mkChunkId at h
  exact append_underscore_repr_inj h

/-- Membership in a `zipWith` comes from members of the two lists. -/
theorem mem_zipWith_exists {α β γ : Type} {f : α → β → γ} :
    ∀ {as : List α} {bs : List β} {x : γ},
      x ∈ List.zipWith f as bs → ∃ a b, a ∈ as ∧ b ∈ bs ∧ x = f a b := by
  intro as
  induction as with
  | nil => intro bs x h; simp at h
  | cons a as ih =>
    intro bs x h
    cases bs with
    | nil => simp at h
    | cons b bs =>
      rw [List.zipWith_cons_cons] at h
      rcases List.mem_cons.1 h with h1 | h2
      · exact ⟨a, b, List.mem_cons_self a as, List.mem_cons_self b bs, h1⟩
      · obtain ⟨a', b', ha, hb, hx⟩ := ih h2
        exact ⟨a', b', List.mem_cons_of_mem a ha, List.mem_cons_of_mem b hb, hx⟩

/-- A `zipWith` whose function determines the right argument is nodup
whenever the right list is. -/
theorem nodup_zipWith_of_nodup_right {α β γ : Type} {f : α → β → γ}
    (hinj : ∀ a₁ b₁ a₂ b₂, f a₁ b₁ = f a₂ b₂ → b₁ = b₂) :
    ∀ (as : List α) (bs : List β), bs.Nodup → (List.zipWith f as bs).Nodup := by
  intro as
  induction as with
  | nil => intro bs _; simp
  | cons a as ih =>
    intro bs hb
    cases bs with
    | nil => simp
    | cons b bs =>
      rw [List.zipWith_cons_cons]
      rcases List.nodup_cons.1 hb with ⟨hbmem, hbs⟩
      refine List.nodup_cons.2 ⟨?_, ih bs hbs⟩
      intro hmem
      obtain ⟨a', b', _, hb', hx⟩ := mem_zipWith_exists hmem
      exact hbmem (hinj a b a' b' hx ▸ hb')

/-- What `chunkLoop` produces from counter `c`: the ids pair the document
stem with the consecutive counters `c+1, …, c+k`, the source field is the
document name throughout, and the returned counter is `c + k`. -/
theorem chunkLoop_spec (src dt : String) :
    ∀ (chunks : List String) (c idx : Nat),
      (chunkLoop src dt c idx chunks).1.map ChunkDict.chunk_id =
        List.zipWith mkChunkId (List.replicate chunks.length src)
          (List.range' (c + 1) chunks.length) ∧
      (chunkLoop src dt c idx chunks).1.map ChunkDict.source_document =
        List.replicate chunks.length src ∧
      (chunkLoop src dt c idx chunks).2 = c + chunks.length ∧
      (chunkLoop src dt c idx chunks).1.length = chunks.length := by
  intro chunks
  induction chunks with
  | nil => intro c idx; simp [chunkLoop]
  | cons ch rest ih =>
    intro c idx
    obtain ⟨h1, h2, h3, h4⟩ := ih (c + 1) (idx + 1)
    refine ⟨?_, ?_, ?_, ?_⟩
    · simp only [chunkLoop, List.map_cons, h1, List.length_cons, List.replicate_succ,
        List.range'_succ, List.zipWith_cons_cons]
    · simp only [chunkLoop, List.map_cons, h2, List.length_cons, List.replicate_succ]
    · simp only [chunkLoop, h3, List.length_cons]
      omega
    · simp only [chunkLoop, List.length_cons, h4]

theorem producedOK_extend (c k : Nat) (chunks : List ChunkDict) (out : IngestOut)
    (hid : chunks.map ChunkDict.chunk_id =
      List.zipWith mkChunkId (chunks.map ChunkDict.source_document)
        (List.range' (c + 1) chunks.length))
    (hk : chunks.length = k)
    (hout : ProducedOK (c + k) out) :
    ProducedOK c { out with produced := chunks ++ out.produced } := by
  obtain ⟨h1, h2⟩ := hout
  constructor
  · show (chunks ++ out.produced).map ChunkDict.chunk_id = _
    rw [List.map_append, List.map_append, h1, hid, List.length_append]
    rw [← List.zipWith_append _ _ _ _ _ (by simp)]
    congr 1
    have hr := List.range'_append (c + 1) k out.produced.length 1
    simp only [one_mul] at hr
    have he : c + 1 + k = c + k + 1 := by omega
    rw [he] at hr
    rw [hk, Nat.add_comm k out.produced.length, ← hr]
  · show out.counter = c + (chunks ++ out.produced).length
    rw [List.length_append, h2, hk]
    omega

theorem ingestLoop_producedOK (env : ParseEnv) (split : String → List String)
    (store : List ChunkDict → Except String Unit) :
    ∀ (files : List (String × ByteArray × String)) (stats : IngestStats) (c : Nat),
      ProducedOK c (ingestLoop env split store stats c files) := by
  intro files
  induction files with
  | nil =>
    intro stats c
    exact ⟨by simp [ingestLoop], by simp [ingestLoop]⟩
  | cons f rest ih =>
    obtain ⟨file_path, file_content, filename⟩ := f
    intro stats c
    rw [ingestLoop]
    split
    · exact ih _ c
    next text_content doc_type _heq =>
      have hkey : ∀ stats' : IngestStats,
          ProducedOK c
            (let out := ingestLoop env split store stats'
              (chunk_text split c text_content filename doc_type).2 rest
             { out with produced := (chunk_text split c text_content filename doc_type).1 ++ out.produced }) := by
        intro stats'
        obtain ⟨hid, hsrc, hcnt, hlen⟩ :=
          chunkLoop_spec filename doc_type (split text_content) c 0
        have hidc : (chunk_text split c text_content filename doc_type).1.map ChunkDict.chunk_id =
            List.zipWith mkChunkId
              ((chunk_text split c text_content filename doc_type).1.map ChunkDict.source_document)
              (List.range' (c + 1) (chunk_text split c text_content filename doc_type).1.length) := by
          simp only [chunk_text]
          rw [hid, hsrc, hlen]
        have hcnt' : (chunk_text split c text_content filename doc_type).2 =
            c + (split text_content).length := hcnt
        refine producedOK_extend c (split text_content).length _ _ hidc hlen ?_
        rw [← hcnt']
        exact ih stats' _
      dsimp only
      split
      · exact hkey _
      · exact hkey _

/-! ## Claim theorems -/

/-- C1: `generate_test_cases` never raises past its boundary: when the
backend call fails with message `e`, the result is a list holding exactly
one synthetic diagnostic record whose `Test_Scenario` carries the failure
description and whose `Grounded_In` is `["system_error"]`; when the
backend succeeds but the fence-stripped response text fails to parse as
JSON with message `je`, the result is likewise exactly the one
parse-error diagnostic record. -/
theorem C1_generate_test_cases_error_contract
    (backend : String → String → Except String String)
    (jsonLoads : String → Except String Json)
    (user_query : String) (retrieved_chunks : List RetrievedChunk) :
    (∀ e, rag_backend_result backend user_query retrieved_chunks = .error e →
       generate_test_cases backend jsonLoads user_query retrieved_chunks =
         [mk_generation_error_case e] ∧
       jsonField (mk_generation_error_case e) "Grounded_In" =
         some (.arr [.str "system_error"]) ∧
       jsonField (mk_generation_error_case e) "Test_Scenario" =
         some (.str ("Failed to generate test cases: " ++ e))) ∧
    (∀ content je,
       rag_backend_result backend user_query retrieved_chunks = .ok content →
       jsonLoads (stripFences content) = .error je →
       generate_test_cases backend jsonLoads user_query retrieved_chunks =
         [mk_parse_error_case je (stripFences content)] ∧
       jsonField (mk_parse_error_case je (stripFences content)) "Grounded_In" =
         some (.arr [.str "system_error"]) ∧
       jsonField (mk_parse_error_case je (stripFences content)) "Test_Scenario" =
         some (.str ("Failed to parse LLM response: " ++ je))) := by
  constructor
  · intro e he
    refine ⟨?_, rfl, rfl⟩
    unfold generate_test_cases
    rw [he]
  · intro content je hok hje
    refine ⟨?_, rfl, rfl⟩
    unfold generate_test_cases
    rw [hok]
    simp only [process_content]
    rw [hje]

theorem C1_witness :
    generate_test_cases (fun _ _ => .error "boom") (fun _ => .error "bad") "q" [] =
      [mk_generation_error_case "boom"] ∧
    generate_test_cases (fun _ _ => .ok "nonsense") (fun _ => .error "bad") "q" [] =
      [mk_parse_error_case "bad" (stripFences "nonsense")] := by
  constructor
  · exact ((C1_generate_test_cases_error_contract (fun _ _ => .error "boom")
      (fun _ => .error "bad") "q" []).1 "boom" rfl).1
  · exact ((C1_generate_test_cases_error_contract (fun _ _ => .ok "nonsense")
      (fun _ => .error "bad") "q" []).2 "nonsense" "bad" rfl rfl).1

/-- C4: Across one ingestion batch, every chunk produced by `chunk_text`
has `chunk_id` built from its source document's stem, an underscore and
the global running counter, the counters being exactly the consecutive
values `c₀+1, …, c₀+n` across the whole batch (increasing monotonically,
never reset per document; the engine's counter ends at `c₀ + n`);
consequently the batch's chunk ids are pairwise distinct, across
different documents included. -/
theorem C4_chunk_ids_unique (env : ParseEnv) (split : String → List String)
    (store : List ChunkDict → Except String Unit) (c₀ : Nat)
    (files : List (String × ByteArray × String)) :
    (ingest_documents env split store c₀ files).produced.map ChunkDict.chunk_id =
      List.zipWith mkChunkId
        ((ingest_documents env split store c₀ files).produced.map ChunkDict.source_document)
        (List.range' (c₀ + 1) (ingest_documents env split store c₀ files).produced.length) ∧
    (ingest_documents env split store c₀ files).counter =
      c₀ + (ingest_documents env split store c₀ files).produced.length ∧
    ((ingest_documents env split store c₀ files).produced.map ChunkDict.chunk_id).Nodup := by
  unfold ingest_documents
  obtain ⟨h1, h2⟩ := ingestLoop_producedOK env split store files emptyStats c₀
  refine ⟨h1, h2, ?_⟩
  rw [h1]
  exact nodup_zipWith_of_nodup_right (fun _ _ _ _ h => mkChunkId_counter_inj h) _ _
    (List.nodup_range' _ _)

/-- C7: On `<button id="pay-btn" class="cart-btn">Pay</button>`, the
extracted selectors include `#pay-btn` and `.cart-btn`, and the element's
info record lands simultaneously in the `buttons`, `payment_elements`
(visible text "Pay") and `cart_elements` (class token "cart-btn")
buckets — bucket membership is non-exclusive. -/
theorem C7_pay_button_buckets :
    "#pay-btn" ∈ (extract_selectors
        [.elem "button" (some "pay-btn") none none none ["cart-btn"] [.text "Pay"]]).all_selectors ∧
    ".cart-btn" ∈ (extract_selectors
        [.elem "button" (some "pay-btn") none none none ["cart-btn"] [.text "Pay"]]).all_selectors ∧
    (⟨"button", ["#pay-btn", ".cart-btn"], some "pay-btn", none⟩ : ElementInfo) ∈
      (extract_selectors
        [.elem "button" (some "pay-btn") none none none ["cart-btn"] [.text "Pay"]]).semantic.buttons ∧
    (⟨"button", ["#pay-btn", ".cart-btn"], some "pay-btn", none⟩ : ElementInfo) ∈
      (extract_selectors
        [.elem "button" (some "pay-btn") none none none ["cart-btn"] [.text "Pay"]]).semantic.payment_elements ∧
    (⟨"button", ["#pay-btn", ".cart-btn"], some "pay-btn", none⟩ : ElementInfo) ∈
      (extract_selectors
        [.elem "button" (some "pay-btn") none none none ["cart-btn"] [.text "Pay"]]).semantic.cart_elements := by
  decide

theorem stepValidation_discount (e : Node) (info : ElementInfo) (d : SelectorsData) :
    (stepValidation e info d).semantic.discount_elements = d.semantic.discount_elements := by
  unfold stepValidation
  split <;> rfl

/-- C10: Any element whose concatenated lowered id+name+class string
contains the substring `"code"` is classified into the
`discount_elements` bucket, because the attribute keyword list of the
discount check is `['discount', 'coupon', 'promo', 'code']` — regardless
of the element's visible text. -/
theorem C10_code_attribute_in_discount (e : Node) (info : ElementInfo) (d : SelectorsData)
    (h : strContains (attrConcat e) "code" = true) :
    info ∈ (categorize_semantic e info d).semantic.discount_elements := by
  unfold categorize_semantic
  rw [stepValidation_discount]
  unfold stepDiscAttr
  have hc : anyKeyword (attrConcat e) ["discount", "coupon", "promo", "code"] = true := by
    unfold anyKeyword
    rw [List.any_eq_true]
    exact ⟨"code", by simp, h⟩
  rw [hc]
  simp

theorem C10_witness :
    (⟨"input", ["#zip-code"], some "zip-code", none⟩ : ElementInfo) ∈
      (categorize_semantic (.elem "input" (some "zip-code") none none none [] [])
        ⟨"input", ["#zip-code"], some "zip-code", none⟩
        initialSelectorsData).semantic.discount_elements :=
  C10_code_attribute_in_discount _ _ _ (by decide)

theorem validateFields_obj (kvs : List (String × Json)) :
    ∀ fields, validateFields fields (.obj kvs) =
      .ok (fields.all (fun f => (assocLookup kvs f).isSome)) := by
  intro fields
  induction fields with
  | nil => rfl
  | cons f fs ih =>
    have step : validateFields (f :: fs) (.obj kvs) =
        if (assocLookup kvs f).isSome then validateFields fs (.obj kvs) else .ok false := rfl
    rw [step, List.all_cons]
    cases hb : (assocLookup kvs f).isSome
    · simp [hb]
    · simp [hb, ih]

theorem validate_test_case_obj (kvs : List (String × Json)) :
    validate_test_case (.obj kvs) = .ok (hasAllRequired (.obj kvs)) := by
  unfold validate_test_case hasAllRequired
  rw [validateFields_obj]
  rfl

theorem validateLoop_obj :
    ∀ (tcs : List Json), (∀ tc ∈ tcs, tc.isObj = true) →
      ∀ acc, validateLoop acc tcs = .ok (acc ++ tcs.filter hasAllRequired) := by
  intro tcs
  induction tcs with
  | nil => intro _ acc; simp [validateLoop]
  | cons tc rest ih =>
    intro hobj acc
    have htc : tc.isObj = true := hobj tc (List.mem_cons_self tc rest)
    obtain ⟨kvs, rfl⟩ : ∃ kvs, tc = .obj kvs := by
      cases tc
      case obj kvs => exact ⟨kvs, rfl⟩
      all_goals simp [Json.isObj] at htc
    rw [validateLoop, validate_test_case_obj]
    show validateLoop (if hasAllRequired (.obj kvs) then acc ++ [.obj kvs] else acc) rest = _
    have hrest : ∀ tc ∈ rest, tc.isObj = true :=
      fun tc htc => hobj tc (List.mem_cons_of_mem _ htc)
    cases hb : hasAllRequired (.obj kvs)
    · simp only [hb, if_neg Bool.false_ne_true, ih hrest acc, List.filter_cons, Bool.false_eq_true,
        if_false]
    · simp only [hb, if_true, ih hrest (acc ++ [.obj kvs]), List.filter_cons, if_pos]
      simp

theorem filter_length_split {α : Type} (p : α → Bool) (l : List α) :
    (l.filter p).length + (l.filter (fun x => ! p x)).length = l.length := by
  induction l with
  | nil => rfl
  | cons a l ih =>
    cases h : p a <;> simp [List.filter_cons, h] <;> omega

/-- C2: When the backend responds and the (fence-stripped) response
parses as a JSON array of dict records, a record is kept in the result of
`generate_test_cases` exactly when all five mandatory fields (`Test_ID`,
`Feature`, `Test_Scenario`, `Expected_Result`, `Grounded_In`) are
present: the result is exactly the filter of the candidates, and its
length is the number of candidates minus the number of malformed ones
(one less per dropped record, with no partial-record repair). -/
theorem C2_mandatory_field_filter (backend : String → String → Except String String)
    (jsonLoads : String → Except String Json)
    (user_query : String) (retrieved_chunks : List RetrievedChunk)
    (content : String) (tcs : List Json)
    (hok : rag_backend_result backend user_query retrieved_chunks = .ok content)
    (hparse : jsonLoads (stripFences content) = .ok (.arr tcs))
    (hobj : ∀ tc ∈ tcs, tc.isObj = true) :
    generate_test_cases backend jsonLoads user_query retrieved_chunks =
      tcs.filter hasAllRequired ∧
    (∀ tc ∈ tcs,
       tc ∈ generate_test_cases backend jsonLoads user_query retrieved_chunks ↔
       hasAllRequired tc = true) ∧
    (generate_test_cases backend jsonLoads user_query retrieved_chunks).length =
      tcs.length - (tcs.filter (fun tc => ! hasAllRequired tc)).length := by
  have hmain : generate_test_cases backend jsonLoads user_query retrieved_chunks =
      tcs.filter hasAllRequired := by
    have hpc : process_content jsonLoads content = .ok (tcs.filter hasAllRequired) := by
      unfold process_content
      rw [hparse]
      show validateLoop [] tcs = .ok (tcs.filter hasAllRequired)
      rw [validateLoop_obj tcs hobj []]
      simp
    unfold generate_test_cases
    rw [hok]
    dsimp only
    rw [hpc]
  refine ⟨hmain, ?_, ?_⟩
  · intro tc htc
    rw [hmain]
    exact ⟨fun hmem => (List.mem_filter.1 hmem).2, fun hp => List.mem_filter.2 ⟨htc, hp⟩⟩
  · rw [hmain]
    have := filter_length_split hasAllRequired tcs
    omega

theorem C2_witness :
    generate_test_cases
      (fun _ _ => .ok "resp")
      (fun _ => .ok (.arr
        [.obj [("Test_ID", .str "TC-001"), ("Feature", .str "F"), ("Test_Scenario", .str "S"),
               ("Expected_Result", .str "R"), ("Grounded_In", .arr [.str "spec.md"])],
         .obj [("Test_ID", .str "TC-002"), ("Feature", .str "F"), ("Test_Scenario", .str "S"),
               ("Expected_Result", .str "R")]]))
      "q" [] =
      [.obj [("Test_ID", .str "TC-001"), ("Feature", .str "F"), ("Test_Scenario", .str "S"),
             ("Expected_Result", .str "R"), ("Grounded_In", .arr [.str "spec.md"])]] := by
  have h := (C2_mandatory_field_filter
    (fun _ _ => .ok "resp")
    (fun _ => .ok (.arr
      [.obj [("Test_ID", .str "TC-001"), ("Feature", .str "F"), ("Test_Scenario", .str "S"),
             ("Expected_Result", .str "R"), ("Grounded_In", .arr [.str "spec.md"])],
       .obj [("Test_ID", .str "TC-002"), ("Feature", .str "F"), ("Test_Scenario", .str "S"),
             ("Expected_Result", .str "R")]]))
    "q" [] "resp"
    [.obj [("Test_ID", .str "TC-001"), ("Feature", .str "F"), ("Test_Scenario", .str "S"),
           ("Expected_Result", .str "R"), ("Grounded_In", .arr [.str "spec.md"])],
     .obj [("Test_ID", .str "TC-002"), ("Feature", .str "F"), ("Test_Scenario", .str "S"),
           ("Expected_Result", .str "R")]]
    rfl rfl (by
      intro tc htc
      cases htc with
      | head => rfl
      | tail _ htc' =>
        cases htc' with
        | head => rfl
        | tail _ hnil => cases hnil)).1
  rw [h]
  rfl

/-- C3: The backend response is fence-stripped and parsed as JSON; then a
bare array is the candidate list, an object with a `test_cases` /
`testCases` key yields that key's value, any other object becomes a
singleton array, and any other parsed shape yields an empty candidate
list.  The first two conjuncts tie `generate_test_cases` to the
strip-parse-select pipeline; the rest settle every shape of
`select_candidates`; the last two evaluate the fence stripping itself. -/
theorem C3_response_shape_handling (backend : String → String → Except String String)
    (jsonLoads : String → Except String Json)
    (user_query : String) (retrieved_chunks : List RetrievedChunk) :
    (∀ content, rag_backend_result backend user_query retrieved_chunks = .ok content →
       generate_test_cases backend jsonLoads user_query retrieved_chunks =
         (match process_content jsonLoads content with
          | .error e => [mk_generation_error_case e]
          | .ok cases => cases)) ∧
    (∀ content parsed, jsonLoads (stripFences content) = .ok parsed →
       process_content jsonLoads content =
         (match pyIterate (select_candidates parsed) with
          | .error e => .error e
          | .ok tcs => validateLoop [] tcs)) ∧
    (∀ xs, select_candidates (.arr xs) = .arr xs) ∧
    (∀ kvs v, assocLookup kvs "test_cases" = some v →
       select_candidates (.obj kvs) = v) ∧
    (∀ kvs v, assocLookup kvs "test_cases" = none →
       assocLookup kvs "testCases" = some v →
       select_candidates (.obj kvs) = v) ∧
    (∀ kvs, assocLookup kvs "test_cases" = none →
       assocLookup kvs "testCases" = none →
       select_candidates (.obj kvs) = .arr [.obj kvs]) ∧
    (select_candidates .null = .arr [] ∧
     (∀ b, select_candidates (.bool b) = .arr []) ∧
     (∀ n, select_candidates (.num n) = .arr []) ∧
     (∀ s, select_candidates (.str s) = .arr [])) ∧
    stripFences "```json\n[1, 2]\n```" = "[1, 2]" ∧
    stripFences "```\nok\n```" = "ok" := by
  refine ⟨?_, ?_, fun xs => rfl, ?_, ?_, ?_,
    ⟨rfl, fun b => rfl, fun n => rfl, fun s => rfl⟩, by decide, by decide⟩
  · intro content hok
    unfold generate_test_cases
    rw [hok]
  · intro content parsed hparse
    unfold process_content
    rw [hparse]
  · intro kvs v h
    unfold select_candidates
    dsimp only
    rw [h]
  · intro kvs v h1 h2
    unfold select_candidates
    dsimp only
    rw [h1, h2]
  · intro kvs h1 h2
    unfold select_candidates
    dsimp only
    rw [h1, h2]

theorem C3_witness :
    select_candidates (.obj [("test_cases", .arr [.null])]) = .arr [.null] ∧
    generate_test_cases (fun _ _ => .ok "```json\n[1, 2]\n```")
        (fun _ => .ok (.obj [("test_cases", .arr [])])) "q" [] =
      (match process_content (fun _ => .ok (.obj [("test_cases", .arr [])]))
          "```json\n[1, 2]\n```" with
       | .error e => [mk_generation_error_case e]
       | .ok cases => cases) := by
  constructor
  · exact (C3_response_shape_handling (fun _ _ => .ok "") (fun _ => .ok .null) "q"
      []).2.2.2.1 [("test_cases", .arr [.null])] (.arr [.null]) rfl
  · exact (C3_response_shape_handling (fun _ _ => .ok "```json\n[1, 2]\n```")
      (fun _ => .ok (.obj [("test_cases", .arr [])])) "q" []).1 "```json\n[1, 2]\n```" rfl

/-- C5: Document normalization is keyed on the filename extension alone:
a `.txt` file (whose bytes decode) is tagged `ui_ux` exactly when the
lowered filename contains `"ui"` or `"ux"`, else `spec`; and a file with
an unsupported extension is decoded best-effort (`errors='ignore'`) and
tagged `spec` unconditionally — that branch cannot raise, so one
unsupported file never fails the batch. -/
theorem C5_extension_dispatch (env : ParseEnv) (file_path : String)
    (file_content : ByteArray) (filename : String) :
    (∀ text, lowerStr (pySuffix filename) = ".txt" →
       env.decode_utf8 file_content = .ok text →
       parse_document env file_path file_content filename =
         .ok (text, if strContains (lowerStr filename) "ui" ||
                    strContains (lowerStr filename) "ux" then "ui_ux" else "spec")) ∧
    (lowerStr (pySuffix filename) ∉
        ([".pdf", ".md", ".txt", ".json", ".html", ".htm"] : List String) →
       parse_document env file_path file_content filename =
         .ok (env.decode_ignore file_content, "spec")) := by
  constructor
  · intro text hext hdec
    unfold parse_document
    dsimp only
    rw [hext]
    rw [if_neg (show (".txt" : String) ≠ ".pdf" by decide),
        if_neg (show (".txt" : String) ≠ ".md" by decide),
        if_pos rfl, hdec]
  · intro hnot
    have h1 : ¬ lowerStr (pySuffix filename) = ".pdf" := fun h => hnot (by rw [h]; simp)
    have h2 : ¬ lowerStr (pySuffix filename) = ".md" := fun h => hnot (by rw [h]; simp)
    have h3 : ¬ lowerStr (pySuffix filename) = ".txt" := fun h => hnot (by rw [h]; simp)
    have h4 : ¬ lowerStr (pySuffix filename) = ".json" := fun h => hnot (by rw [h]; simp)
    have h5 : ¬ lowerStr (pySuffix filename) = ".html" := fun h => hnot (by rw [h]; simp)
    have h6 : ¬ lowerStr (pySuffix filename) = ".htm" := fun h => hnot (by rw [h]; simp)
    unfold parse_document
    dsimp only
    rw [if_neg h1, if_neg h2, if_neg h3, if_neg h4]
    split
    next hcond =>
      exfalso
      simp only [Bool.or_eq_true, decide_eq_true_eq] at hcond
      rcases hcond with hc | hc
      · exact h5 hc
      · exact h6 hc
    next => rfl

theorem C5_witness :
    parse_document testParseEnv "p" ByteArray.empty "UI-notes.txt" = .ok ("hello", "ui_ux") ∧
    parse_document testParseEnv "p" ByteArray.empty "notes.xyz" =
      .ok ("ignored", "spec") := by
  constructor
  · have h := (C5_extension_dispatch testParseEnv "p" ByteArray.empty "UI-notes.txt").1
      "hello" (by decide) rfl
    rw [h]
    rfl
  · exact (C5_extension_dispatch testParseEnv "p" ByteArray.empty "notes.xyz").2 (by decide)

theorem flattenObjLines_scalar :
    ∀ (kvs : List (String × Json)), (∀ kv ∈ kvs, kv.2.isScalar = true) →
      flattenObjLines kvs "" = kvs.map (fun kv => kv.1 ++ ": " ++ pyStr kv.2) := by
  intro kvs
  induction kvs with
  | nil => intro _; simp [flattenObjLines]
  | cons kv rest ih =>
    intro h
    obtain ⟨key, value⟩ := kv
    have hv : value.isScalar = true := h (key, value) (List.mem_cons_self _ _)
    have hrest := ih (fun kv hkv => h kv (List.mem_cons_of_mem _ hkv))
    cases value with
    | obj kvs2 => simp [Json.isScalar] at hv
    | arr xs => simp [Json.isScalar] at hv
    | null => rw [flattenObjLines] <;> simp [hrest]
    | bool b => rw [flattenObjLines] <;> simp [hrest]
    | num n => rw [flattenObjLines] <;> simp [hrest]
    | str st => rw [flattenObjLines] <;> simp [hrest]

/-- C6: On an already-flat object (no dict or list values), JSON
flattening emits exactly one `key: value` line per key, in input key
order, joined by newlines (with the empty prefix, the path of a top-level
key is the key itself). -/
theorem C6_flatten_flat_object (kvs : List (String × Json))
    (h : ∀ kv ∈ kvs, kv.2.isScalar = true) :
    flatten_json (.obj kvs) "" =
      pyJoin "\n" (kvs.map (fun kv => kv.1 ++ ": " ++ pyStr kv.2)) := by
  rw [flatten_json]
  rw [flattenObjLines_scalar kvs h]

theorem C6_witness : flatten_json (.obj [("a", .num 1)]) "" = "a: 1" := by
  have h := C6_flatten_flat_object [("a", .num 1)] (by
    intro kv hkv
    cases hkv with
    | head => rfl
    | tail _ hnil => cases hnil)
  rw [h]
  rfl

theorem isPrefixOf_append_self (l t : List Char) : l.isPrefixOf (l ++ t) = true := by
  induction l with
  | nil => simp [List.isPrefixOf]
  | cons a as ih => simp [List.isPrefixOf, ih]

theorem isSubListOf_infix (pre needle post : List Char) :
    isSubListOf needle (pre ++ (needle ++ post)) = true := by
  induction pre with
  | nil =>
    cases needle with
    | nil =>
      cases post with
      | nil => rfl
      | cons c cs => simp [isSubListOf, List.isPrefixOf]
    | cons n ns =>
      show ((n :: ns).isPrefixOf ((n :: ns) ++ post) ||
        isSubListOf (n :: ns) (ns ++ post)) = true
      rw [isPrefixOf_append_self]
      simp
  | cons a pre ih =>
    show (needle.isPrefixOf (a :: (pre ++ (needle ++ post))) ||
      isSubListOf needle (pre ++ (needle ++ post))) = true
    rw [ih]
    simp

theorem strContains_append_middle (a mid b : String) :
    strContains (a ++ (mid ++ b)) mid = true := by
  unfold strContains
  rw [String.data_append, String.data_append]
  exact isSubListOf_infix a.data mid.data b.data

theorem append_right_ne_empty (s t : String) (h : t ≠ "") : s ++ t ≠ "" := by
  intro hc
  apply h
  have hd := congrArg String.data hc
  rw [String.data_append] at hd
  exact String.ext (List.append_eq_nil.1 hd).2

theorem append_left_ne_empty (s t : String) (h : s ≠ "") : s ++ t ≠ "" := by
  intro hc
  apply h
  have hd := congrArg String.data hc
  rw [String.data_append] at hd
  exact String.ext (List.append_eq_nil.1 hd).1

theorem script_header_ne_empty (tc : List (String × Json)) (h : String)
    (hh : script_header tc = .ok h) : h ≠ "" := by
  unfold script_header at hh
  cases hjoin : pyCommaJoin (pyGet tc "Grounded_In" (.arr [])) with
  | error e => rw [hjoin] at hh; cases hh
  | ok grounded =>
    rw [hjoin] at hh
    injection hh with hh'
    rw [← hh']
    exact append_right_ne_empty _ _ (by decide)

set_option maxRecDepth 4000 in
/-- C8: `generate_script` is total and always yields renderable text: the
result is never the empty string (in particular with empty selector
evidence), and on backend failure it is exactly the self-contained
fallback script, whose body contains the failure description. -/
theorem C8_generate_script_total (backend : String → String → Except String String)
    (dumps : List (String × Json) → String)
    (selector_docs : Option (List String))
    (doc_results : Option (List (Option String × String)))
    (test_case : List (String × Json)) :
    generate_script backend dumps selector_docs doc_results test_case ≠ "" ∧
    (∀ e, backend script_system_prompt
        (script_user_prompt (dumps test_case) (retrieve_html_selectors selector_docs)
          (retrieve_relevant_docs doc_results)) = .error e →
       generate_script backend dumps selector_docs doc_results test_case =
         error_script test_case e ∧
       strContains (error_script test_case e) e = true) := by
  constructor
  · unfold generate_script
    dsimp only
    cases hb : backend script_system_prompt
        (script_user_prompt (dumps test_case) (retrieve_html_selectors selector_docs)
          (retrieve_relevant_docs doc_results)) with
    | error e =>
      show error_script test_case e ≠ ""
      exact append_right_ne_empty _ _ (by decide)
    | ok response =>
      cases hh : script_header test_case with
      | error e =>
        show error_script test_case e ≠ ""
        exact append_right_ne_empty _ _ (by decide)
      | ok header =>
        show header ++ stripFencesScript response ≠ ""
        exact append_left_ne_empty _ _ (script_header_ne_empty test_case header hh)
  · intro e hb
    constructor
    · unfold generate_script
      dsimp only
      rw [hb]
    · unfold error_script strContains
      simp only [String.data_append, List.append_assoc]
      exact isSubListOf_infix _ _ _

theorem C8_witness :
    generate_script (fun _ _ => .error "boom") (fun _ => "") none none [] =
      error_script [] "boom" ∧
    generate_script (fun _ _ => .error "boom") (fun _ => "") none none [] ≠ "" := by
  have h := C8_generate_script_total (fun _ _ => .error "boom") (fun _ => "") none none []
  exact ⟨(h.2 "boom" rfl).1, h.1⟩

theorem ingestLoop_filenames (env : ParseEnv) (split : String → List String)
    (store : List ChunkDict → Except String Unit) :
    ∀ (files : List (String × ByteArray × String)) (stats : IngestStats) (c : Nat),
      (ingestLoop env split store stats c files).stats.files_processed.map
          FileEntry.filenameOf =
        stats.files_processed.map FileEntry.filenameOf ++ files.map (fun f => f.2.2) := by
  intro files
  induction files with
  | nil => intro stats c; simp [ingestLoop]
  | cons f rest ih =>
    obtain ⟨fp, fc, fn⟩ := f
    intro stats c
    rw [ingestLoop]
    split
    · rw [ih]
      simp [FileEntry.filenameOf]
    next text_content doc_type _heq =>
      dsimp only
      split
      · rw [ih]
        simp [FileEntry.filenameOf]
      · rw [ih]
        simp [FileEntry.filenameOf]

theorem ingestLoop_entries (env : ParseEnv) (split : String → List String)
    (store : List ChunkDict → Except String Unit) :
    ∀ (files : List (String × ByteArray × String)) (stats : IngestStats) (c : Nat),
      (ingestLoop env split store stats c files).stats.files_processed =
        stats.files_processed ++
          (ingestLoop env split store emptyStats c files).stats.files_processed ∧
      (ingestLoop env split store stats c files).stats.total_files =
        stats.total_files +
          (ingestLoop env split store emptyStats c files).stats.total_files ∧
      (ingestLoop env split store stats c files).stats.total_chunks =
        stats.total_chunks +
          (ingestLoop env split store emptyStats c files).stats.total_chunks ∧
      (ingestLoop env split store stats c files).counter =
        (ingestLoop env split store emptyStats c files).counter := by
  intro files
  induction files with
  | nil => intro stats c; simp [ingestLoop, emptyStats]
  | cons f rest ih =>
    obtain ⟨fp, fc, fn⟩ := f
    intro stats c
    simp only [ingestLoop]
    cases hp : parse_document env fp fc fn with
    | error e =>
      obtain ⟨e1, e2, e3, e4⟩ := ih { stats with
        files_processed := stats.files_processed ++ [.err fn e] } c
      obtain ⟨f1, f2, f3, f4⟩ := ih { emptyStats with
        files_processed := emptyStats.files_processed ++ [.err fn e] } c
      obtain ⟨g1, g2, g3, g4⟩ := ih emptyStats c
      refine ⟨?_, ?_, ?_, ?_⟩
      · rw [e1, f1]; simp [emptyStats]
      · rw [e2, f2]; simp [emptyStats]
      · rw [e3, f3]; simp [emptyStats]
      · rw [e4, f4]
    | ok td =>
      obtain ⟨text_content, doc_type⟩ := td
      dsimp only
      cases hs : embed_and_store store (chunk_text split c text_content fn doc_type).1 with
      | error e =>
        obtain ⟨e1, e2, e3, e4⟩ := ih { stats with
          files_processed := stats.files_processed ++ [.err fn e] }
          (chunk_text split c text_content fn doc_type).2
        obtain ⟨f1, f2, f3, f4⟩ := ih { emptyStats with
          files_processed := emptyStats.files_processed ++ [.err fn e] }
          (chunk_text split c text_content fn doc_type).2
        refine ⟨?_, ?_, ?_, ?_⟩
        · show _ = _ ++ ({ ingestLoop env split store _ _ rest with
            produced := _ } : IngestOut).stats.files_processed
          rw [e1, f1]; simp [emptyStats]
        · rw [e2, f2]; simp [emptyStats]
        · rw [e3, f3]; simp [emptyStats]
        · rw [e4, f4]
      | ok num_stored =>
        obtain ⟨e1, e2, e3, e4⟩ := ih { stats with
          total_files := stats.total_files + 1,
          total_chunks := stats.total_chunks + num_stored,
          files_processed := stats.files_processed ++ [.ok fn doc_type num_stored],
          doc_types := bumpDocType stats.doc_types doc_type }
          (chunk_text split c text_content fn doc_type).2
        obtain ⟨f1, f2, f3, f4⟩ := ih { emptyStats with
          total_files := emptyStats.total_files + 1,
          total_chunks := emptyStats.total_chunks + num_stored,
          files_processed := emptyStats.files_processed ++ [.ok fn doc_type num_stored],
          doc_types := bumpDocType emptyStats.doc_types doc_type }
          (chunk_text split c text_content fn doc_type).2
        refine ⟨?_, ?_, ?_, ?_⟩
        · rw [e1, f1]; simp [emptyStats]
        · rw [e2, f2]; simp [emptyStats]; omega
        · rw [e3, f3]; simp [emptyStats]; omega
        · rw [e4, f4]

theorem ingestLoop_doc_types_congr (env : ParseEnv) (split : String → List String)
    (store : List ChunkDict → Except String Unit) :
    ∀ (files : List (String × ByteArray × String)) (s₁ s₂ : IngestStats) (c : Nat),
      s₁.doc_types = s₂.doc_types →
      (ingestLoop env split store s₁ c files).stats.doc_types =
        (ingestLoop env split store s₂ c files).stats.doc_types := by
  intro files
  induction files with
  | nil => intro s₁ s₂ c h; simpa [ingestLoop] using h
  | cons f rest ih =>
    obtain ⟨fp, fc, fn⟩ := f
    intro s₁ s₂ c h
    simp only [ingestLoop]
    cases hp : parse_document env fp fc fn with
    | error e => exact ih _ _ c h
    | ok td =>
      obtain ⟨text_content, doc_type⟩ := td
      dsimp only
      cases hs : embed_and_store store (chunk_text split c text_content fn doc_type).1 with
      | error e => exact ih _ _ _ h
      | ok num_stored =>
        exact ih _ _ _ (by simp [h])

/-- C9: Per-file ingestion errors are isolated: every input file yields
exactly one `files_processed` entry carrying its filename (the batch
never aborts), and when the head file's parse raises, its entry is the
structured error record while the remaining files contribute exactly the
same statistics, entries, doc-type tallies and final counter as a batch
without the failing file. -/
theorem C9_per_file_error_isolation (env : ParseEnv) (split : String → List String)
    (store : List ChunkDict → Except String Unit) (c₀ : Nat)
    (files : List (String × ByteArray × String)) :
    (ingest_documents env split store c₀ files).stats.files_processed.length =
      files.length ∧
    (ingest_documents env split store c₀ files).stats.files_processed.map
        FileEntry.filenameOf = files.map (fun f => f.2.2) ∧
    (∀ file_path file_content filename rest e,
       files = (file_path, file_content, filename) :: rest →
       parse_document env file_path file_content filename = .error e →
       (ingest_documents env split store c₀ files).stats.files_processed =
         FileEntry.err filename e ::
           (ingest_documents env split store c₀ rest).stats.files_processed ∧
       (ingest_documents env split store c₀ files).stats.total_files =
         (ingest_documents env split store c₀ rest).stats.total_files ∧
       (ingest_documents env split store c₀ files).stats.total_chunks =
         (ingest_documents env split store c₀ rest).stats.total_chunks ∧
       (ingest_documents env split store c₀ files).stats.doc_types =
         (ingest_documents env split store c₀ rest).stats.doc_types ∧
       (ingest_documents env split store c₀ files).counter =
         (ingest_documents env split store c₀ rest).counter) := by
  have hnames := ingestLoop_filenames env split store files emptyStats c₀
  refine ⟨?_, ?_, ?_⟩
  · have := congrArg List.length hnames
    simpa [emptyStats] using this
  · simpa [ingest_documents, emptyStats] using hnames
  · intro file_path file_content filename rest e hfiles hp
    subst hfiles
    unfold ingest_documents
    rw [ingestLoop]
    rw [hp]
    dsimp only
    obtain ⟨e1, e2, e3, e4⟩ := ingestLoop_entries env split store rest
      { emptyStats with files_processed := emptyStats.files_processed ++ [.err filename e] } c₀
    refine ⟨?_, ?_, ?_, ?_, ?_⟩
    · rw [e1, (ingestLoop_entries env split store rest emptyStats c₀).1]
      simp [emptyStats]
    · rw [e2, (ingestLoop_entries env split store rest emptyStats c₀).2.1]
      simp [emptyStats]
    · rw [e3, (ingestLoop_entries env split store rest emptyStats c₀).2.2.1]
      simp [emptyStats]
    · exact ingestLoop_doc_types_congr env split store rest _ _ c₀ (by simp [emptyStats])
    · exact e4

theorem C9_witness :
    (ingest_documents testParseEnv splitStub storeStub 0
        [("p", ByteArray.empty, "bad.pdf"), ("p", ByteArray.empty, "notes.xyz")]).stats.files_processed =
      FileEntry.err "bad.pdf" "pdf boom" ::
        (ingest_documents testParseEnv splitStub storeStub 0
          [("p", ByteArray.empty, "notes.xyz")]).stats.files_processed := by
  exact ((C9_per_file_error_isolation testParseEnv splitStub storeStub 0
    [("p", ByteArray.empty, "bad.pdf"), ("p", ByteArray.empty, "notes.xyz")]).2.2
    "p" ByteArray.empty "bad.pdf" [("p", ByteArray.empty, "notes.xyz")] "pdf boom"
    rfl rfl).1
